import Mathlib

/-!
# near-cli: the `dev-deploy` and `js` command handlers

A shallow embedding of `src/commands/dev-deploy.js` and `src/commands/js.js`.

The handlers are glue code around external collaborators (connection factory,
account handle, analytics sink, file system).  Every collaborator is a field of
`Env`, returning either a value or the error it throws; a handler is a function
from the options object to a run: the ordered log of external effects it
performed, the options object as the handler left it, and its outcome.
-/

namespace NearCli

/-! ## JavaScript values -/

/-- The JavaScript values that the command-line options of the two commands can
hold: `undefined`, `null`, booleans, integer-valued numbers (those printed in
plain decimal), strings, and arbitrary-precision `BN` instances (the type of
`DEFAULT_FUNCTION_CALL_GAS`). -/
inductive JSVal where
  | undefined
  | null
  | bool (b : Bool)
  | num (n : Int)
  | str (s : String)
  | bn (n : Nat)
  deriving DecidableEq, Repr

/-- JavaScript truthiness, as tested by `if (x)`, `!x`, `x && y` and `x ? a : b`. -/
def JSVal.truthy : JSVal → Bool
  | .undefined => false
  | .null => false
  | .bool b => b
  | .num n => n ≠ 0
  | .str s => s ≠ ""
  | .bn _ => true

/-- String conversion of a value inside a template literal. -/
def JSVal.toStr : JSVal → String
  | .undefined => "undefined"
  | .null => "null"
  | .bool true => "true"
  | .bool false => "false"
  | .num n => toString n
  | .str s => s
  | .bn n => toString n

/-- JSON data, the shape of the structured `kind` field of a remote error;
numbers are the integers printed in plain decimal. -/
inductive Json where
  | null
  | bool (b : Bool)
  | num (n : Int)
  | str (s : String)
  | arr (items : List Json)
  | obj (fields : List (String × Json))
  deriving Repr

/-- The values a handler can throw. -/
inductive JSError where
  /-- An `Error(message)` created by the handlers themselves. -/
  | error (message : String)
  /-- Evaluation of an identifier that is bound neither in the module nor globally. -/
  | referenceError (name : String)
  /-- A member access or call on a value that does not support it. -/
  | typeError (message : String)
  /-- An error object thrown by a collaborator; `kind` is its `kind` field
  (`none` when the field is `undefined`). -/
  | rejected (kind : Option Json) (message : String)
  deriving Repr

/-- Escaping of one character inside a JSON string literal. -/
def Json.escapeChar (c : Char) : String :=
  if c = '"' then "\\\""
  else if c = '\\' then "\\\\"
  else if c = '\n' then "\\n"
  else if c = '\r' then "\\r"
  else if c = '\t' then "\\t"
  else if c.toNat = 8 then "\\b"
  else if c.toNat = 12 then "\\f"
  else if c.toNat < 32 then
    "\\u00" ++ String.singleton (Nat.digitChar (c.toNat / 16))
      ++ String.singleton (Nat.digitChar (c.toNat % 16))
  else String.singleton c

/-- A JSON string literal: the escaped characters between double quotes. -/
def Json.quote (s : String) : String :=
  "\"" ++ String.join (s.data.map Json.escapeChar) ++ "\""

mutual
/-- The text `JSON.stringify` produces for a JSON value. -/
def Json.stringify : Json → String
  | .null => "null"
  | .bool true => "true"
  | .bool false => "false"
  | .num n => toString n
  | .str s => Json.quote s
  | .arr items => "[" ++ Json.stringifyItems items ++ "]"
  | .obj fields => "\x7b" ++ Json.stringifyFields fields ++ "\x7d"
/-- The comma-separated elements of an array. -/
def Json.stringifyItems : List Json → String
  | [] => ""
  | [x] => Json.stringify x
  | x :: y :: rest => Json.stringify x ++ "," ++ Json.stringifyItems (y :: rest)
/-- The comma-separated `"key":value` members of an object. -/
def Json.stringifyFields : List (String × Json) → String
  | [] => ""
  | [(k, v)] => Json.quote k ++ ":" ++ Json.stringify v
  | (k, v) :: f :: rest =>
    Json.quote k ++ ":" ++ Json.stringify v ++ "," ++ Json.stringifyFields (f :: rest)
end

/-- The value of `JSON.stringify(error.kind)` for a caught error: `none` stands
for `undefined`, the result when the error has no `kind` field. -/
def JSError.stringifyKind : JSError → Option String
  | .rejected (some k) _ => some (Json.stringify k)
  | _ => none

/-! ## Options, collaborators and effects -/

/-- The options object handed to a handler by the argument parser: the fields
the two command modules read. -/
structure Options where
  networkId : JSVal := .undefined
  nodeUrl : JSVal := .undefined
  helperUrl : JSVal := .undefined
  masterAccount : JSVal := .undefined
  keyStore : JSVal := .undefined
  accountId : JSVal := .undefined
  wasmFile : JSVal := .undefined
  initFunction : JSVal := .undefined
  initArgs : JSVal := .undefined
  initGas : JSVal := .undefined
  initDeposit : JSVal := .undefined
  base64File : JSVal := .undefined
  gas : JSVal := .undefined
  deposit : JSVal := .undefined
  depositYocto : JSVal := .undefined
  jsvm : JSVal := .undefined
  deriving DecidableEq, Repr

/-- The contents of a `Buffer`: a sequence of bytes. -/
abbrev Buffer := List Nat

/-- A connection handle returned by `connect`. -/
structure Near where
  handle : Nat
  deriving DecidableEq, Repr

/-- An account handle returned by `near.account(accountId)`. -/
structure Account where
  handle : Nat
  deriving DecidableEq, Repr

/-- The result of `account.state()`, of which only `code_hash` is read. -/
structure AccountState where
  code_hash : String
  deriving DecidableEq, Repr

/-- The raw outcome of a submitted transaction or function call. -/
structure Response where
  raw : String
  deriving DecidableEq, Repr

/-- The transaction actions built by `transactions.deployContract` and
`transactions.functionCall`. -/
inductive Action where
  | deployContract (code : Buffer)
  | functionCall (methodName : JSVal) (args : Buffer) (gas : JSVal) (deposit : JSVal)
  deriving DecidableEq, Repr

/-- The argument of `account.signAndSendTransaction`. -/
structure Transaction where
  receiverId : String
  actions : List Action
  deriving DecidableEq, Repr

/-- The argument of `account.functionCall`. -/
structure FunctionCallArgs where
  contractId : JSVal
  methodName : String
  args : Option Buffer
  gas : JSVal
  attachedDeposit : JSVal
  deriving DecidableEq, Repr

/-- The payload of an analytics event sent under `EVENT_ID_DEPLOY_END`. -/
inductive DeployEnd where
  | failure (error : String)
  | success (code_hash : String) (is_same_contract : Bool) (contract_id : JSVal)
  deriving DecidableEq, Repr

/-- One external effect performed by a handler, in the order of the log. -/
inductive Event where
  | askForConsentIfNeeded
  | connect
  | createDevAccountIfNeeded
  | nearAccount (accountId : JSVal)
  | accountState
  | readFileSync (path : JSVal)
  | consoleLog (line : String)
  | consoleLogError (e : JSError)
  | track (payload : DeployEnd)
  | trackDeployedContract
  | signAndSendTransaction (tx : Transaction)
  | prettyPrintResponse (response : Response)
  | checkCredentials (accountId : JSVal) (networkId : JSVal)
  | functionCall (call : FunctionCallArgs)
  | handleExceededThePrepaidGasError (e : JSError)
  deriving Repr

/-- The external collaborators of the handlers.  Each field gives, for the
arguments of a call, the value it returns or the error it throws.
`accountState` also receives the number of state queries made earlier in the
run, so that the snapshot after a submission can differ from the one before.
`bufferFrom` is `Buffer.from` and `parseNearAmount` is
`utils.format.parseNearAmount`.  `handleExceededThePrepaidGasError` is what the
`catch` blocks of `js.js` would call under that name, were the name bound. -/
structure Env where
  askForConsentIfNeeded : Options → Except JSError Unit
  connect : Options → Except JSError Near
  createDevAccountIfNeeded : Options → Near → Except JSError String
  nearAccount : Near → JSVal → Except JSError Account
  accountState : Account → Nat → Except JSError AccountState
  readFileSync : JSVal → Except JSError Buffer
  bufferFrom : JSVal → Except JSError Buffer
  parseNearAmount : JSVal → Except JSError JSVal
  track : DeployEnd → Options → Except JSError Unit
  trackDeployedContract : Except JSError Unit
  signAndSendTransaction : Account → Transaction → Except JSError Response
  prettyPrintResponse : Response → Options → Except JSError Unit
  checkCredentials : JSVal → JSVal → JSVal → Except JSError Unit
  functionCall : Account → FunctionCallArgs → Except JSError Response
  getTransactionLastResult : Response → Except JSError JSVal
  formatResponse : JSVal → Except JSError String
  handleExceededThePrepaidGasError : JSError → Options → Except JSError Unit

/-- The state a handler runs in: the effects performed so far and the options
object, which the handler may assign to. -/
structure St where
  log : List Event
  options : Options

/-- A computation of a handler: from a state to a returned value or a thrown
error, and the state reached. -/
def Eff (α : Type) : Type := St → Except JSError α × St

/-- Sequencing: a thrown error skips the rest and keeps the state reached. -/
def Eff.bind {α β : Type} (m : Eff α) (f : α → Eff β) : Eff β := fun s =>
  match (m s).1 with
  | .ok a => f a (m s).2
  | .error e => (.error e, (m s).2)

instance : Monad Eff where
  pure a := fun s => (.ok a, s)
  bind := Eff.bind

/-- The statement `throw e`. -/
def Eff.throw {α : Type} (e : JSError) : Eff α := fun s => (.error e, s)

/-- A pure computation that may throw. -/
def Eff.ofExcept {α : Type} (r : Except JSError α) : Eff α := fun s => (r, s)

/-- An external call: it is recorded in the log, then returns or throws. -/
def Eff.perform {α : Type} (ev : Event) (r : Except JSError α) : Eff α := fun s =>
  (r, { s with log := s.log ++ [ev] })

/-- Reading the options object. -/
def Eff.getOptions : Eff Options := fun s => (.ok s.options, s)

/-- The assignment `options.initFunction = v`. -/
def Eff.setInitFunction (v : JSVal) : Eff Unit := fun s =>
  (.ok (), { s with options := { s.options with initFunction := v } })

/-- The statement `try body catch (error) handler`. -/
def Eff.tryCatch {α : Type} (body : Eff α) (handler : JSError → Eff α) : Eff α := fun s =>
  match (body s).1 with
  | .ok a => (.ok a, (body s).2)
  | .error e => handler e (body s).2

/-- The statement `if (c) body` without an `else` branch. -/
def Eff.when (c : Bool) (body : Eff Unit) : Eff Unit :=
  if c then body else pure ()

/-- Evaluation of a free identifier against the names in scope. -/
def resolve (scope : List String) (name : String) : Except JSError Unit :=
  if name ∈ scope then .ok () else .error (.referenceError name)

/-- Evaluation of a free identifier inside a handler. -/
def Eff.ident (scope : List String) (name : String) : Eff Unit :=
  Eff.ofExcept (resolve scope name)

/-- The global names of the runtime that the two modules use. -/
def nodeGlobals : List String :=
  ["Error", "Buffer", "JSON", "console", "require", "module"]

/-- The run of a handler on an options object. -/
structure Run where
  log : List Event
  options : Options
  outcome : Except JSError Unit

/-- Running a handler from an empty log. -/
def Eff.run (m : Eff Unit) (options : Options) : Run :=
  let r := m { log := [], options := options }
  { log := r.2.log, options := r.2.options, outcome := r.1 }

/-! ## `src/commands/dev-deploy.js` -/

/-- The names bound at module level in `dev-deploy.js` (lines 1 to 14 and the
function declaration), and the globals. -/
def devDeployScope : List String :=
  ["transactions", "DEFAULT_FUNCTION_CALL_GAS", "utils", "exitOnError", "connect",
   "createDevAccountIfNeeded", "readFileSync", "PROJECT_KEY_DIR", "eventtracking",
   "inspectResponse", "devDeploy"] ++ nodeGlobals

/-- The message of the error thrown on the production network (line 66). -/
def mainnetMessage : String :=
  "MainNet doesn\x27t support dev-deploy. Use export NEAR_ENV=testnet to switch to TestNet"

/-- The message of the error thrown when no account can be created (line 71). -/
def noAccountSourceMessage : String :=
  "Cannot create account as neither helperUrl nor masterAccount is specified in config for current NODE_ENV (see src/config.js)"

/-- The message of the error thrown for an init method without arguments (line 92). -/
def missingInitArgsMessage : String :=
  "Must add initialization arguments.\nExample: near dev-deploy --initFunction \"new\" --initArgs \x27\x7b\"key\": \"value\"\x7d\x27"

/-- The status phrase of the last line printed (line 111):
`options.initFunction ? 'and initializing' : 'to'`. -/
def statusPhrase (initFunction : JSVal) : String :=
  if initFunction.truthy then "and initializing" else "to"

/-- The line printed before the deployment (lines 79 and 80). -/
def startingLine (accountId : String) (nodeUrl helperUrl wasmFile : JSVal) : String :=
  "Starting deployment. Account id: " ++ accountId ++ ", node: " ++ nodeUrl.toStr
    ++ ", helper: " ++ helperUrl.toStr ++ ", file: " ++ wasmFile.toStr

/-- The handler `devDeploy(options)` of `dev-deploy.js`, lines 64 to 112. -/
def devDeploy (env : Env) : Eff Unit := do
  let options ← Eff.getOptions
  Eff.when (options.networkId = .str "mainnet") do
    Eff.ident devDeployScope "Error"
    Eff.throw (.error mainnetMessage)
  Eff.ident devDeployScope "eventtracking"
  Eff.perform .askForConsentIfNeeded (env.askForConsentIfNeeded options)
  let nodeUrl := options.nodeUrl
  let helperUrl := options.helperUrl
  let masterAccount := options.masterAccount
  let wasmFile := options.wasmFile
  Eff.when (!helperUrl.truthy && !masterAccount.truthy) do
    Eff.ident devDeployScope "Error"
    Eff.throw (.error noAccountSourceMessage)
  Eff.ident devDeployScope "connect"
  let near ← Eff.perform .connect (env.connect options)
  Eff.ident devDeployScope "createDevAccountIfNeeded"
  let accountId ← Eff.perform .createDevAccountIfNeeded
    (env.createDevAccountIfNeeded options near)
  let account ← Eff.perform (.nearAccount (.str accountId))
    (env.nearAccount near (.str accountId))
  let prevState ← Eff.perform .accountState (env.accountState account 0)
  let prevCodeHash := prevState.code_hash
  Eff.ident devDeployScope "console"
  Eff.perform (.consoleLog (startingLine accountId nodeUrl helperUrl wasmFile)) (.ok ())
  Eff.ident devDeployScope "transactions"
  Eff.ident devDeployScope "readFileSync"
  let code ← Eff.perform (.readFileSync options.wasmFile)
    (env.readFileSync options.wasmFile)
  let deployAction := Action.deployContract code
  Eff.when (options.initArgs.truthy && !options.initFunction.truthy) do
    Eff.setInitFunction (.str "new")
  let options ← Eff.getOptions
  let actions ←
    (if options.initFunction.truthy then do
      Eff.when (!options.initArgs.truthy) do
        Eff.ident devDeployScope "eventtracking"
        Eff.perform (.track (.failure "Must add initialization arguments"))
          (env.track (.failure "Must add initialization arguments") options)
        Eff.ident devDeployScope "Error"
        Eff.throw (.error missingInitArgsMessage)
      Eff.ident devDeployScope "transactions"
      Eff.ident devDeployScope "Buffer"
      let args ← Eff.ofExcept (env.bufferFrom options.initArgs)
      Eff.ident devDeployScope "utils"
      let deposit ← Eff.ofExcept (env.parseNearAmount options.initDeposit)
      pure [deployAction, Action.functionCall options.initFunction args options.initGas deposit]
    else
      pure [deployAction])
  let tx : Transaction := { receiverId := accountId, actions := actions }
  let result ← Eff.perform (.signAndSendTransaction tx)
    (env.signAndSendTransaction account tx)
  Eff.ident devDeployScope "inspectResponse"
  Eff.perform (.prettyPrintResponse result) (env.prettyPrintResponse result options)
  let state ← Eff.perform .accountState (env.accountState account 1)
  let codeHash := state.code_hash
  Eff.ident devDeployScope "eventtracking"
  Eff.perform
    (.track (.success codeHash (decide (prevCodeHash = codeHash)) options.accountId))
    (env.track (.success codeHash (decide (prevCodeHash = codeHash)) options.accountId) options)
  Eff.ident devDeployScope "eventtracking"
  Eff.perform .trackDeployedContract env.trackDeployedContract
  Eff.ident devDeployScope "console"
  Eff.perform (.consoleLog ("Done deploying " ++ statusPhrase options.initFunction
    ++ " " ++ accountId)) (.ok ())

/-! ## `src/commands/js.js` -/

/-- The names bound at module level in `js.js` (lines 1 to 5 and the function
declarations), and the globals. -/
def jsScope : List String :=
  ["DEFAULT_FUNCTION_CALL_GAS", "providers", "utils", "exitOnError", "connect",
   "inspectResponse", "checkCredentials", "jsvm_contract_id", "base64_encode",
   "deploy", "remove"] ++ nodeGlobals

/-- The constant `DEFAULT_FUNCTION_CALL_GAS` of the SDK, a `BN` of 30 Tgas; the
default of the `gas` option. -/
def DEFAULT_FUNCTION_CALL_GAS : JSVal := .bn 30000000000000

/-- The call `gas.toNumber()`: defined on `BN` instances, where it throws above
53 bits; a type error on every other value. -/
def toNumber : JSVal → Except JSError JSVal
  | .bn n =>
    if n < 2 ^ 53 then .ok (.num n)
    else .error (.error "Number can only safely store up to 53 bits")
  | .undefined => .error (.typeError "Cannot read properties of undefined (reading \x27toNumber\x27)")
  | .null => .error (.typeError "Cannot read properties of null (reading \x27toNumber\x27)")
  | _ => .error (.typeError "options.gas.toNumber is not a function")

/-- The function `jsvm_contract_id(options)` of `js.js`, lines 78 to 92.  The
template literal of line 91 reads the unbound name `option`, so the last branch
throws a reference error and never builds its message. -/
def jsvm_contract_id (options : Options) : Except JSError JSVal :=
  if options.jsvm ≠ .null then
    .ok options.jsvm
  else if options.networkId = .str "mainnet" then
    (resolve jsScope "Error").bind fun _ =>
    .error (.error "No current default jsvm contract for mainnet")
  else if options.networkId = .str "testnet" then
    .ok (.str "jsvm.testnet")
  else
    (resolve jsScope "Error").bind fun _ =>
    (resolve jsScope "option").bind fun _ =>
    .error (.error ("Cannot find a default JSVM contract for network id "
      ++ options.networkId.toStr))

/-- The test `x != null`: false exactly on `null` and `undefined`. -/
def JSVal.looseNeNull : JSVal → Bool
  | .null => false
  | .undefined => false
  | _ => true

/-- The deposit of `js deploy`, the initialiser of `deposit` at line 111:
`options.depositYocto != null ? options.depositYocto : utils.format.parseNearAmount(options.deposit)`. -/
def resolveDeposit (env : Env) (options : Options) : Except JSError JSVal :=
  if options.depositYocto.looseNeNull then
    .ok options.depositYocto
  else
    (resolve jsScope "utils").bind fun _ =>
    env.parseNearAmount options.deposit

/-- The case label of the `switch` in the two `catch` blocks (lines 131 and 164). -/
def exceededPrepaidGasLabel : String :=
  "\x7b\"ExecutionError\":\"Exceeded the prepaid gas.\"\x7d"

/-- The `catch (error)` block shared by `deploy` (lines 129 to 139) and `remove`
(lines 162 to 172). -/
def catchBlock (env : Env) (options : Options) (error : JSError) : Eff Unit := do
  Eff.ident jsScope "JSON"
  if error.stringifyKind = some exceededPrepaidGasLabel then
    Eff.ident jsScope "handleExceededThePrepaidGasError"
    Eff.perform (.handleExceededThePrepaidGasError error)
      (env.handleExceededThePrepaidGasError error options)
  else
    Eff.ident jsScope "console"
    Eff.perform (.consoleLogError error) (.ok ())

/-- The statements of a `try` block after the function call returned (lines 125
to 128 and 158 to 161). -/
def reportResponse (env : Env) (options : Options) (functionCallResponse : Response) :
    Eff Unit := do
  Eff.ident jsScope "providers"
  let result ← Eff.ofExcept (env.getTransactionLastResult functionCallResponse)
  Eff.ident jsScope "inspectResponse"
  Eff.perform (.prettyPrintResponse functionCallResponse)
    (env.prettyPrintResponse functionCallResponse options)
  Eff.ident jsScope "console"
  Eff.ident jsScope "inspectResponse"
  let text ← Eff.ofExcept (env.formatResponse result)
  Eff.perform (.consoleLog text) (.ok ())

/-- The handler `deploy(options)` of `js.js`, lines 104 to 140.  Line 112 calls
`readFileSync` and line 115 reads `base64file`; the module binds neither. -/
def deploy (env : Env) : Eff Unit := do
  let options ← Eff.getOptions
  Eff.ident jsScope "checkCredentials"
  Eff.perform (.checkCredentials options.accountId options.networkId)
    (env.checkCredentials options.accountId options.networkId options.keyStore)
  let accountId := options.accountId
  let base64File := options.base64File
  Eff.ident jsScope "connect"
  let near ← Eff.perform .connect (env.connect options)
  let account ← Eff.perform (.nearAccount accountId) (env.nearAccount near accountId)
  Eff.ident jsScope "jsvm_contract_id"
  let jsvmId ← Eff.ofExcept (jsvm_contract_id options)
  let deposit ← Eff.ofExcept (resolveDeposit env options)
  Eff.ident jsScope "readFileSync"
  let base64Contract ← Eff.perform (.readFileSync base64File) (env.readFileSync base64File)
  Eff.ident jsScope "console"
  Eff.ident jsScope "base64file"
  Eff.perform (.consoleLog ("Starting deployment. Account id: " ++ accountId.toStr
    ++ ", JSVM: " ++ jsvmId.toStr ++ ", file: " ++ base64File.toStr)) (.ok ())
  Eff.tryCatch
    (do
      let gas ← Eff.ofExcept (toNumber options.gas)
      let call : FunctionCallArgs :=
        { contractId := jsvmId, methodName := "deploy_js_contract",
          args := some base64Contract, gas := gas, attachedDeposit := deposit }
      let functionCallResponse ← Eff.perform (.functionCall call)
        (env.functionCall account call)
      reportResponse env options functionCallResponse)
    (catchBlock env options)

/-- The handler `remove(options)` of `js.js`, lines 142 to 173. -/
def remove (env : Env) : Eff Unit := do
  let options ← Eff.getOptions
  Eff.ident jsScope "checkCredentials"
  Eff.perform (.checkCredentials options.accountId options.networkId)
    (env.checkCredentials options.accountId options.networkId options.keyStore)
  let accountId := options.accountId
  Eff.ident jsScope "connect"
  let near ← Eff.perform .connect (env.connect options)
  let account ← Eff.perform (.nearAccount accountId) (env.nearAccount near accountId)
  Eff.ident jsScope "jsvm_contract_id"
  let jsvmId ← Eff.ofExcept (jsvm_contract_id options)
  Eff.tryCatch
    (do
      let gas ← Eff.ofExcept (toNumber options.gas)
      let call : FunctionCallArgs :=
        { contractId := jsvmId, methodName := "remove_js_contract",
          args := none, gas := gas, attachedDeposit := .str "0" }
      let functionCallResponse ← Eff.perform (.functionCall call)
        (env.functionCall account call)
      reportResponse env options functionCallResponse)
    (catchBlock env options)

/-! ## Observations on a log -/

/-- The transactions submitted in a log, in order. -/
def submissions : List Event → List Transaction
  | [] => []
  | .signAndSendTransaction tx :: rest => tx :: submissions rest
  | _ :: rest => submissions rest

/-- The remote function calls made in a log, in order. -/
def functionCalls : List Event → List FunctionCallArgs
  | [] => []
  | .functionCall call :: rest => call :: functionCalls rest
  | _ :: rest => functionCalls rest

/-- The analytics events emitted in a log, in order. -/
def analyticsEvents : List Event → List DeployEnd
  | [] => []
  | .track payload :: rest => payload :: analyticsEvents rest
  | _ :: rest => analyticsEvents rest

/-- Whether an effect reaches the network: a connection, the creation or lookup
of the development account, an account-state query, a transaction submission or
a remote function call. -/
def Event.isNetworkCall : Event → Bool
  | .connect => true
  | .createDevAccountIfNeeded => true
  | .accountState => true
  | .signAndSendTransaction _ => true
  | .functionCall _ => true
  | _ => false

/-- Whether the text `word` occurs in `line`. -/
abbrev mentions (line word : String) : Prop := word.data <:+: line.data

/-- The bound of the specification on the submissions of a run: one signed
transaction was submitted, or none was and the handler failed. -/
def SubmitsOnceOrFails (r : Run) : Prop :=
  (submissions r.log).length = 1 ∨ (submissions r.log = [] ∧ ∃ e, r.outcome = .error e)

/-! ## Sample inputs -/

/-- An environment in which every collaborator succeeds; only the file
`./out/main.wasm` exists. -/
def sampleEnv : Env where
  askForConsentIfNeeded := fun _ => .ok ()
  connect := fun _ => .ok { handle := 0 }
  createDevAccountIfNeeded := fun _ _ => .ok "dev-1667520000000-44269488213541"
  nearAccount := fun _ _ => .ok { handle := 0 }
  accountState := fun _ n =>
    .ok { code_hash := if n = 0 then "11111111111111111111111111111111"
                       else "7KoFshXYaQEs9ZrVzEkZDBvYnESya8pzJmuRqBqA8Fpt" }
  readFileSync := fun path =>
    if path = .str "./out/main.wasm" then .ok [0, 97, 115, 109, 1, 0, 0, 0]
    else .error (.rejected none "ENOENT: no such file or directory")
  bufferFrom := fun v =>
    match v with
    | .str x => .ok (x.data.map Char.toNat)
    | _ => .error (.typeError "The first argument must be of type string or an instance of Buffer")
  parseNearAmount := fun v =>
    match v with
    | .str "0" => .ok (.str "0")
    | .str "1" => .ok (.str "1000000000000000000000000")
    | _ => .ok .null
  track := fun _ _ => .ok ()
  trackDeployedContract := .ok ()
  signAndSendTransaction := fun _ _ => .ok { raw := "SuccessValue" }
  prettyPrintResponse := fun _ _ => .ok ()
  checkCredentials := fun _ _ _ => .ok ()
  functionCall := fun _ _ => .ok { raw := "SuccessValue" }
  getTransactionLastResult := fun _ => .ok (.str "")
  formatResponse := fun v => .ok v.toStr
  handleExceededThePrepaidGasError := fun _ _ => .ok ()

/-- The error of a remote call that ran out of prepaid gas. -/
def exceededPrepaidGas : JSError :=
  .rejected (some (.obj [("ExecutionError", .str "Exceeded the prepaid gas.")]))
    "Exceeded the prepaid gas."

/-- The sample environment with a remote function call that runs out of gas. -/
def gasExceededEnv : Env :=
  { sampleEnv with functionCall := fun _ _ => .error exceededPrepaidGas }

/-- The options `dev-deploy` receives on testnet with the defaults of its builder. -/
def testnetOptions : Options :=
  { networkId := .str "testnet", nodeUrl := .str "https://rpc.testnet.near.org",
    helperUrl := .str "https://helper.testnet.near.org",
    masterAccount := .str "test.near", wasmFile := .str "./out/main.wasm",
    initGas := DEFAULT_FUNCTION_CALL_GAS, initDeposit := .str "0" }

/-- The testnet options with init arguments and no init method. -/
def initArgsOptions : Options :=
  { testnetOptions with initArgs := .str "\x7b\"owner\":\"alice.testnet\"\x7d" }

/-- The testnet options with an init method and no init arguments. -/
def initOnlyOptions : Options :=
  { testnetOptions with initFunction := .str "new" }

/-- The testnet options with a contract file that does not exist. -/
def missingWasmOptions : Options :=
  { testnetOptions with wasmFile := .str "./out/missing.wasm" }

/-- The options of `js remove --accountId=alice.testnet` on testnet.  The
builder of `remove` (lines 59 to 74) declares `accountId` and `gas` only, so
`jsvm` is `undefined`. -/
def aliceRemoveOptions : Options :=
  { networkId := .str "testnet", nodeUrl := .str "https://rpc.testnet.near.org",
    accountId := .str "alice.testnet", gas := DEFAULT_FUNCTION_CALL_GAS }

/-- The options of
`js deploy --accountId=alice.testnet --base64File=./out/main.wasm --depositYocto=1`
on testnet.  The builder of `deploy` (lines 42 to 46) gives `jsvm` the default
`null`. -/
def aliceDeployOptions : Options :=
  { networkId := .str "testnet", nodeUrl := .str "https://rpc.testnet.near.org",
    accountId := .str "alice.testnet", base64File := .str "./out/main.wasm",
    gas := DEFAULT_FUNCTION_CALL_GAS, depositYocto := .str "1", jsvm := .null }

/-- The options of
`js deploy --accountId=alice.testnet --base64File=./out/main.wasm --depositYocto=1 --deposit=5`
on testnet. -/
def aliceBothDepositsOptions : Options :=
  { aliceDeployOptions with deposit := .str "5" }

/-- The options of
`js deploy --accountId=alice.testnet --base64File=./out/main.wasm --deposit=1`
on testnet. -/
def aliceNearDepositOptions : Options :=
  { aliceDeployOptions with depositYocto := .undefined, deposit := .str "1" }

/-! ## Theorems -/

/-! ### Stepping a computation -/

/-- Each primitive of `Eff`, applied to a state, rewrites to the pair it returns. -/
theorem Eff.step :
    (∀ {α β : Type} (m : Eff α) (f : α → Eff β) (s : St),
      (m >>= f) s = match (m s).1 with
        | .ok a => f a (m s).2
        | .error e => (.error e, (m s).2))
    ∧ (∀ {α : Type} (a : α) (s : St), (pure a : Eff α) s = (.ok a, s))
    ∧ (∀ {α : Type} (ev : Event) (r : Except JSError α) (s : St),
        Eff.perform ev r s = (r, { s with log := s.log ++ [ev] }))
    ∧ (∀ {α : Type} (r : Except JSError α) (s : St), Eff.ofExcept r s = (r, s))
    ∧ (∀ {α : Type} (e : JSError) (s : St), (Eff.throw e : Eff α) s = (.error e, s))
    ∧ (∀ (s : St), Eff.getOptions s = (.ok s.options, s))
    ∧ (∀ (v : JSVal) (s : St), Eff.setInitFunction v s
        = (.ok (), { s with options := { s.options with initFunction := v } }))
    ∧ (∀ (scope : List String) (name : String) (s : St),
        Eff.ident scope name s = (resolve scope name, s))
    ∧ (∀ (body : Eff Unit), Eff.when true body = body)
    ∧ (∀ (body : Eff Unit) (s : St), Eff.when false body s = (.ok (), s))
    ∧ (∀ {α : Type} (body : Eff α) (handler : JSError → Eff α) (s : St),
        Eff.tryCatch body handler s = match (body s).1 with
          | .ok a => (.ok a, (body s).2)
          | .error e => handler e (body s).2) :=
  ⟨fun _ _ _ => rfl, fun _ _ => rfl, fun _ _ _ => rfl, fun _ _ => rfl, fun _ _ => rfl,
    fun _ => rfl, fun _ _ => rfl, fun _ _ _ => rfl, fun _ => rfl, fun _ _ => rfl,
    fun _ _ _ => rfl⟩

/-- A run is read off the pair the handler returns from the empty log. -/
theorem Eff.run_of_eq {m : Eff Unit} {options final : Options} {r : Except JSError Unit}
    {log : List Event}
    (h : m { log := [], options := options } = (r, { log := log, options := final })) :
    m.run options = { log := log, options := final, outcome := r } := by
  simp only [Eff.run, h]

/-- Every free identifier of `devDeploy` is bound in its module. -/
theorem resolve_devDeployScope :
    resolve devDeployScope "Error" = .ok ()
    ∧ resolve devDeployScope "eventtracking" = .ok ()
    ∧ resolve devDeployScope "connect" = .ok ()
    ∧ resolve devDeployScope "createDevAccountIfNeeded" = .ok ()
    ∧ resolve devDeployScope "console" = .ok ()
    ∧ resolve devDeployScope "transactions" = .ok ()
    ∧ resolve devDeployScope "readFileSync" = .ok ()
    ∧ resolve devDeployScope "Buffer" = .ok ()
    ∧ resolve devDeployScope "utils" = .ok ()
    ∧ resolve devDeployScope "inspectResponse" = .ok () :=
  ⟨rfl, rfl, rfl, rfl, rfl, rfl, rfl, rfl, rfl, rfl⟩

/-- The free identifiers of `js.js`: four of them are bound nowhere. -/
theorem resolve_jsScope :
    resolve jsScope "Error" = .ok ()
    ∧ resolve jsScope "checkCredentials" = .ok ()
    ∧ resolve jsScope "connect" = .ok ()
    ∧ resolve jsScope "jsvm_contract_id" = .ok ()
    ∧ resolve jsScope "utils" = .ok ()
    ∧ resolve jsScope "console" = .ok ()
    ∧ resolve jsScope "providers" = .ok ()
    ∧ resolve jsScope "inspectResponse" = .ok ()
    ∧ resolve jsScope "JSON" = .ok ()
    ∧ resolve jsScope "readFileSync" = .error (.referenceError "readFileSync")
    ∧ resolve jsScope "base64file" = .error (.referenceError "base64file")
    ∧ resolve jsScope "handleExceededThePrepaidGasError"
        = .error (.referenceError "handleExceededThePrepaidGasError")
    ∧ resolve jsScope "option" = .error (.referenceError "option") :=
  ⟨rfl, rfl, rfl, rfl, rfl, rfl, rfl, rfl, rfl, rfl, rfl, rfl, rfl⟩

theorem truthy_new : (JSVal.str "new").truthy = true := rfl

/-- A conditional computation applied to a state. -/
theorem Eff.ite_apply {α : Type} (c : Prop) [Decidable c] (a b : Eff α) (s : St) :
    (if c then a else b) s = if c then a s else b s := by
  split <;> rfl

/-- The default gas converts to the number 30000000000000. -/
theorem toNumber_default :
    toNumber DEFAULT_FUNCTION_CALL_GAS = .ok (.num 30000000000000) := by
  simp [toNumber, DEFAULT_FUNCTION_CALL_GAS]

/-- The kind of the prepaid-gas error serialises to the case label of the `switch`. -/
theorem stringifyKind_exceededPrepaidGas :
    exceededPrepaidGas.stringifyKind = some exceededPrepaidGasLabel := by
  decide

/-! ### `dev-deploy` -/

/-- C1: on the production network `devDeploy` throws the MainNet error with an
empty log of effects (no consent prompt, connection, account creation, file
read, analytics event or submission), whatever the other options and whatever
the collaborators would do. -/
theorem devDeploy_refuses_mainnet (env : Env) (options : Options)
    (h : options.networkId = .str "mainnet") :
    (devDeploy env).run options =
      { log := [], options := options, outcome := .error (.error mainnetMessage) } := by
  apply Eff.run_of_eq
  simp only [devDeploy, Eff.step, resolve_devDeployScope, h, decide_True]

/-- C1 at `wasmFile = ./out/main.wasm` with `networkId = mainnet`. -/
theorem devDeploy_refuses_mainnet_witness :
    (devDeploy sampleEnv).run { testnetOptions with networkId := .str "mainnet" } =
      { log := [], options := { testnetOptions with networkId := .str "mainnet" },
        outcome := .error (.error mainnetMessage) } :=
  devDeploy_refuses_mainnet sampleEnv _ rfl

/-- C2: with init arguments and no init method, once the network and endpoint
checks pass and the collaborators up to the file read succeed, the options
object ends with `initFunction = 'new'`, and the one transaction submitted is
the deploy action followed by a function call of the method `new`. -/
theorem devDeploy_defaults_init_method (env : Env) (options : Options)
    (near : Near) (accountId : String) (account : Account) (prev : AccountState)
    (code args : Buffer) (deposit : JSVal)
    (hnet : options.networkId ≠ .str "mainnet")
    (hsrc : options.helperUrl.truthy = true ∨ options.masterAccount.truthy = true)
    (hargs : options.initArgs.truthy = true)
    (hfn : options.initFunction.truthy = false)
    (hconsent : env.askForConsentIfNeeded options = .ok ())
    (hconn : env.connect options = .ok near)
    (hdev : env.createDevAccountIfNeeded options near = .ok accountId)
    (hacc : env.nearAccount near (.str accountId) = .ok account)
    (hstate : env.accountState account 0 = .ok prev)
    (hfile : env.readFileSync options.wasmFile = .ok code)
    (hbuf : env.bufferFrom options.initArgs = .ok args)
    (hdep : env.parseNearAmount options.initDeposit = .ok deposit) :
    ((devDeploy env).run options).options.initFunction = .str "new"
    ∧ submissions ((devDeploy env).run options).log =
        [{ receiverId := accountId,
           actions := [.deployContract code,
                       .functionCall (.str "new") args options.initGas deposit] }] := by
  have hsrc2 : (!options.helperUrl.truthy && !options.masterAccount.truthy) = false := by
    rcases hsrc with h | h <;> simp [h]
  simp only [Eff.run, devDeploy, Eff.step, resolve_devDeployScope, hnet, hsrc2, hfn, hconsent,
    hconn, hdev, hacc, hstate, hfile, hbuf, hdep, hargs, truthy_new, decide_False, decide_True,
    Bool.not_true, Bool.not_false, Bool.and_true, Bool.and_false, Bool.false_eq_true,
    ↓reduceIte]
  refine ⟨?_, ?_⟩ <;> (repeat' split) <;> simp [submissions]

/-- C2 at `--initArgs '{"owner":"alice.testnet"}'` on testnet. -/
theorem devDeploy_defaults_init_method_witness :
    ((devDeploy sampleEnv).run initArgsOptions).options.initFunction = .str "new"
    ∧ submissions ((devDeploy sampleEnv).run initArgsOptions).log =
        [{ receiverId := "dev-1667520000000-44269488213541",
           actions := [.deployContract [0, 97, 115, 109, 1, 0, 0, 0],
                       .functionCall (.str "new")
                         ("\x7b\"owner\":\"alice.testnet\"\x7d".data.map Char.toNat)
                         DEFAULT_FUNCTION_CALL_GAS (.str "0")] }] :=
  devDeploy_defaults_init_method sampleEnv initArgsOptions { handle := 0 }
    "dev-1667520000000-44269488213541" { handle := 0 }
    { code_hash := "11111111111111111111111111111111" } [0, 97, 115, 109, 1, 0, 0, 0]
    ("\x7b\"owner\":\"alice.testnet\"\x7d".data.map Char.toNat) (.str "0")
    (by decide) (Or.inl rfl) rfl rfl rfl rfl rfl rfl rfl rfl rfl rfl

/-- The run of `devDeploy` on an init method without init arguments, when the
collaborators up to the analytics call succeed. -/
theorem devDeploy_run_of_missing_args (env : Env) (options : Options)
    (near : Near) (accountId : String) (account : Account) (prev : AccountState)
    (code : Buffer)
    (hnet : options.networkId ≠ .str "mainnet")
    (hsrc : options.helperUrl.truthy = true ∨ options.masterAccount.truthy = true)
    (hfn : options.initFunction.truthy = true)
    (hargs : options.initArgs.truthy = false)
    (hconsent : env.askForConsentIfNeeded options = .ok ())
    (hconn : env.connect options = .ok near)
    (hdev : env.createDevAccountIfNeeded options near = .ok accountId)
    (hacc : env.nearAccount near (.str accountId) = .ok account)
    (hstate : env.accountState account 0 = .ok prev)
    (hfile : env.readFileSync options.wasmFile = .ok code)
    (htrack : env.track (.failure "Must add initialization arguments") options = .ok ()) :
    (devDeploy env).run options =
      { log := [.askForConsentIfNeeded, .connect, .createDevAccountIfNeeded,
                .nearAccount (.str accountId), .accountState,
                .consoleLog (startingLine accountId options.nodeUrl options.helperUrl
                  options.wasmFile),
                .readFileSync options.wasmFile,
                .track (.failure "Must add initialization arguments")],
        options := options,
        outcome := .error (.error missingInitArgsMessage) } := by
  have hsrc2 : (!options.helperUrl.truthy && !options.masterAccount.truthy) = false := by
    rcases hsrc with h | h <;> simp [h]
  apply Eff.run_of_eq
  simp only [devDeploy, Eff.step, resolve_devDeployScope, hnet, hsrc2, hfn, hconsent,
    hconn, hdev, hacc, hstate, hfile, htrack, hargs, decide_False, decide_True,
    Bool.not_true, Bool.not_false, Bool.and_true, Bool.and_false, Bool.false_and, ↓reduceIte,
    List.nil_append, List.cons_append]

/-- C3, as amended: with an init method and no init arguments, off the
production network and with an account source configured, when the consent
prompt, the connection, the development account, the first state query, the
file read and the analytics call succeed, `devDeploy` fails with the
`Must add initialization arguments` error.  The failure comes after the
connection, the development account and the state query, and before any
submission; exactly one analytics event, a deployment end with
`success = false`, has been emitted. -/
theorem devDeploy_init_method_without_args (env : Env) (options : Options)
    (near : Near) (accountId : String) (account : Account) (prev : AccountState)
    (code : Buffer)
    (hnet : options.networkId ≠ .str "mainnet")
    (hsrc : options.helperUrl.truthy = true ∨ options.masterAccount.truthy = true)
    (hfn : options.initFunction.truthy = true)
    (hargs : options.initArgs.truthy = false)
    (hconsent : env.askForConsentIfNeeded options = .ok ())
    (hconn : env.connect options = .ok near)
    (hdev : env.createDevAccountIfNeeded options near = .ok accountId)
    (hacc : env.nearAccount near (.str accountId) = .ok account)
    (hstate : env.accountState account 0 = .ok prev)
    (hfile : env.readFileSync options.wasmFile = .ok code)
    (htrack : env.track (.failure "Must add initialization arguments") options = .ok ()) :
    ((devDeploy env).run options).outcome = .error (.error missingInitArgsMessage)
    ∧ ((devDeploy env).run options).log.filter Event.isNetworkCall
        = [.connect, .createDevAccountIfNeeded, .accountState]
    ∧ submissions ((devDeploy env).run options).log = []
    ∧ analyticsEvents ((devDeploy env).run options).log
        = [.failure "Must add initialization arguments"] := by
  rw [devDeploy_run_of_missing_args env options near accountId account prev code hnet hsrc hfn
    hargs hconsent hconn hdev hacc hstate hfile htrack]
  simp [submissions, analyticsEvents, Event.isNetworkCall]

/-- C3, as amended, at `--initFunction new` on testnet. -/
theorem devDeploy_init_method_without_args_witness :
    ((devDeploy sampleEnv).run initOnlyOptions).outcome = .error (.error missingInitArgsMessage)
    ∧ ((devDeploy sampleEnv).run initOnlyOptions).log.filter Event.isNetworkCall
        = [.connect, .createDevAccountIfNeeded, .accountState]
    ∧ submissions ((devDeploy sampleEnv).run initOnlyOptions).log = []
    ∧ analyticsEvents ((devDeploy sampleEnv).run initOnlyOptions).log
        = [.failure "Must add initialization arguments"] :=
  devDeploy_init_method_without_args sampleEnv initOnlyOptions { handle := 0 }
    "dev-1667520000000-44269488213541" { handle := 0 }
    { code_hash := "11111111111111111111111111111111" } [0, 97, 115, 109, 1, 0, 0, 0]
    (by decide) (Or.inl rfl) rfl rfl rfl rfl rfl rfl rfl rfl rfl

/-- C3, as stated, fails: at `--initFunction new` on testnet, with no init
arguments, the handler fails with the `Must add initialization arguments`
error, yet a connection, the development account and an account-state query
precede the failure. -/
theorem devDeploy_init_method_without_args_counterexample :
    initOnlyOptions.initFunction = .str "new"
    ∧ initOnlyOptions.initArgs = .undefined
    ∧ initOnlyOptions.networkId = .str "testnet"
    ∧ ((devDeploy sampleEnv).run initOnlyOptions).outcome
        = .error (.error missingInitArgsMessage)
    ∧ ((devDeploy sampleEnv).run initOnlyOptions).log.filter Event.isNetworkCall
        = [.connect, .createDevAccountIfNeeded, .accountState]
    ∧ ((devDeploy sampleEnv).run initOnlyOptions).log.filter Event.isNetworkCall ≠ [] := by
  rw [devDeploy_run_of_missing_args sampleEnv initOnlyOptions { handle := 0 }
    "dev-1667520000000-44269488213541" { handle := 0 }
    { code_hash := "11111111111111111111111111111111" } [0, 97, 115, 109, 1, 0, 0, 0]
    (by decide) (Or.inl rfl) rfl rfl rfl rfl rfl rfl rfl rfl rfl]
  simp [Event.isNetworkCall, initOnlyOptions, testnetOptions]

/-- The text `initializing` does not occur in the status line of a plain
deployment unless it occurs in the account id. -/
theorem not_mentions_initializing (accountId : String)
    (h : ¬ mentions accountId "initializing") :
    ¬ mentions ("Done deploying to " ++ accountId) "initializing" := by
  have hpat : "initializing".data
      = ['i', 'n', 'i', 't', 'i', 'a', 'l', 'i', 'z', 'i', 'n', 'g'] := rfl
  have hpre : "Done deploying to ".data
      = ['D', 'o', 'n', 'e', ' ', 'd', 'e', 'p', 'l', 'o', 'y', 'i', 'n', 'g', ' ', 't', 'o', ' '] :=
    rfl
  simp only [mentions, String.data_append, hpat, hpre] at h ⊢
  simpa [List.infix_cons_iff, List.cons_prefix_cons] using h

/-- C9: with no init method and no init arguments, off the production network,
with an account source configured, a readable contract file and succeeding
collaborators, `devDeploy` completes; it submits exactly one transaction, to the
development account, whose only action is the deploy action built from the
bytes of the file; the last line printed is `Done deploying to <accountId>`,
in which `initializing` does not occur (for an account id free of that word). -/
theorem devDeploy_plain_deploy (env : Env) (options : Options)
    (near : Near) (accountId : String) (account : Account) (prev post : AccountState)
    (code : Buffer) (response : Response)
    (hnet : options.networkId ≠ .str "mainnet")
    (hsrc : options.helperUrl.truthy = true ∨ options.masterAccount.truthy = true)
    (hfn : options.initFunction.truthy = false)
    (hargs : options.initArgs.truthy = false)
    (hconsent : env.askForConsentIfNeeded options = .ok ())
    (hconn : env.connect options = .ok near)
    (hdev : env.createDevAccountIfNeeded options near = .ok accountId)
    (hacc : env.nearAccount near (.str accountId) = .ok account)
    (hstate : env.accountState account 0 = .ok prev)
    (hfile : env.readFileSync options.wasmFile = .ok code)
    (hsend : env.signAndSendTransaction account
      { receiverId := accountId, actions := [.deployContract code] } = .ok response)
    (hprint : env.prettyPrintResponse response options = .ok ())
    (hpost : env.accountState account 1 = .ok post)
    (htrack : env.track (.success post.code_hash (decide (prev.code_hash = post.code_hash))
      options.accountId) options = .ok ())
    (hmark : env.trackDeployedContract = .ok ())
    (hname : ¬ mentions accountId "initializing") :
    ((devDeploy env).run options).outcome = .ok ()
    ∧ submissions ((devDeploy env).run options).log
        = [{ receiverId := accountId, actions := [.deployContract code] }]
    ∧ ((devDeploy env).run options).log.getLast?
        = some (.consoleLog ("Done deploying to " ++ accountId))
    ∧ ¬ mentions ("Done deploying to " ++ accountId) "initializing" := by
  have hsrc2 : (!options.helperUrl.truthy && !options.masterAccount.truthy) = false := by
    rcases hsrc with h | h <;> simp [h]
  have hline : "Done deploying " ++ statusPhrase options.initFunction ++ " " ++ accountId
      = "Done deploying to " ++ accountId := by
    simp only [statusPhrase, hfn, String.append_assoc]
    rfl
  have hrun : devDeploy env { log := [], options := options } =
      (.ok (),
        { log := [.askForConsentIfNeeded, .connect, .createDevAccountIfNeeded,
                  .nearAccount (.str accountId), .accountState,
                  .consoleLog (startingLine accountId options.nodeUrl options.helperUrl
                    options.wasmFile),
                  .readFileSync options.wasmFile,
                  .signAndSendTransaction
                    { receiverId := accountId, actions := [.deployContract code] },
                  .prettyPrintResponse response, .accountState,
                  .track (.success post.code_hash (decide (prev.code_hash = post.code_hash))
                    options.accountId),
                  .trackDeployedContract,
                  .consoleLog ("Done deploying to " ++ accountId)],
          options := options }) := by
    simp only [devDeploy, Eff.step, resolve_devDeployScope, hnet, hsrc2, hfn, hconsent,
      hconn, hdev, hacc, hstate, hfile, hsend, hprint, hpost, htrack, hmark, hargs, hline,
      decide_False, decide_True, Bool.not_true, Bool.not_false, Bool.and_true, Bool.and_false,
      Bool.false_and, Bool.false_eq_true, ↓reduceIte, List.nil_append, List.cons_append]
  rw [Eff.run_of_eq hrun]
  exact ⟨rfl, by simp [submissions], by simp, not_mentions_initializing accountId hname⟩

/-- C9 at `wasmFile = ./out/main.wasm` on testnet. -/
theorem devDeploy_plain_deploy_witness :
    ((devDeploy sampleEnv).run testnetOptions).outcome = .ok ()
    ∧ submissions ((devDeploy sampleEnv).run testnetOptions).log
        = [{ receiverId := "dev-1667520000000-44269488213541",
             actions := [.deployContract [0, 97, 115, 109, 1, 0, 0, 0]] }]
    ∧ ((devDeploy sampleEnv).run testnetOptions).log.getLast?
        = some (.consoleLog ("Done deploying to " ++ "dev-1667520000000-44269488213541"))
    ∧ ¬ mentions ("Done deploying to " ++ "dev-1667520000000-44269488213541") "initializing" :=
  devDeploy_plain_deploy sampleEnv testnetOptions { handle := 0 }
    "dev-1667520000000-44269488213541" { handle := 0 }
    { code_hash := "11111111111111111111111111111111" }
    { code_hash := "7KoFshXYaQEs9ZrVzEkZDBvYnESya8pzJmuRqBqA8Fpt" }
    [0, 97, 115, 109, 1, 0, 0, 0] { raw := "SuccessValue" }
    (by decide) (Or.inl rfl) rfl rfl rfl rfl rfl rfl rfl rfl rfl rfl rfl rfl rfl (by decide)

/-- The run of `devDeploy` on an unreadable contract file, when the
collaborators before the file read succeed. -/
theorem devDeploy_run_of_unreadable (env : Env) (options : Options)
    (near : Near) (accountId : String) (account : Account) (prev : AccountState)
    (e : JSError)
    (hnet : options.networkId ≠ .str "mainnet")
    (hsrc : options.helperUrl.truthy = true ∨ options.masterAccount.truthy = true)
    (hconsent : env.askForConsentIfNeeded options = .ok ())
    (hconn : env.connect options = .ok near)
    (hdev : env.createDevAccountIfNeeded options near = .ok accountId)
    (hacc : env.nearAccount near (.str accountId) = .ok account)
    (hstate : env.accountState account 0 = .ok prev)
    (hfile : env.readFileSync options.wasmFile = .error e) :
    (devDeploy env).run options =
      { log := [.askForConsentIfNeeded, .connect, .createDevAccountIfNeeded,
                .nearAccount (.str accountId), .accountState,
                .consoleLog (startingLine accountId options.nodeUrl options.helperUrl
                  options.wasmFile),
                .readFileSync options.wasmFile],
        options := options,
        outcome := .error e } := by
  have hsrc2 : (!options.helperUrl.truthy && !options.masterAccount.truthy) = false := by
    rcases hsrc with h | h <;> simp [h]
  apply Eff.run_of_eq
  simp only [devDeploy, Eff.step, resolve_devDeployScope, hnet, hsrc2, hconsent,
    hconn, hdev, hacc, hstate, hfile, decide_False, decide_True, List.nil_append,
    List.cons_append]

/-- On every path `devDeploy` reaches at most one submission, and a path without
a submission ends in a thrown error. -/
theorem devDeploy_pair_submits_once_or_fails (env : Env) (options : Options) :
    (submissions (devDeploy env { log := [], options := options }).2.log).length = 1
    ∨ (submissions (devDeploy env { log := [], options := options }).2.log = []
        ∧ ∃ e, (devDeploy env { log := [], options := options }).1 = .error e) := by
  by_cases hnet : options.networkId = .str "mainnet"
  · simp only [devDeploy, Eff.step, resolve_devDeployScope, hnet, decide_True]
    simp [submissions]
  rcases h1 : env.askForConsentIfNeeded options with e | u
  · simp only [devDeploy, Eff.step, resolve_devDeployScope, hnet, h1, decide_False]
    simp [submissions]
  cases hsrc : (!options.helperUrl.truthy && !options.masterAccount.truthy)
  swap
  · simp only [devDeploy, Eff.step, resolve_devDeployScope, hnet, h1, hsrc, decide_False]
    simp [submissions]
  rcases h2 : env.connect options with e | near
  · simp only [devDeploy, Eff.step, resolve_devDeployScope, hnet, h1, hsrc, h2, decide_False]
    simp [submissions]
  rcases h3 : env.createDevAccountIfNeeded options near with e | accountId
  · simp only [devDeploy, Eff.step, resolve_devDeployScope, hnet, h1, hsrc, h2, h3,
      decide_False]
    simp [submissions]
  rcases h4 : env.nearAccount near (.str accountId) with e | account
  · simp only [devDeploy, Eff.step, resolve_devDeployScope, hnet, h1, hsrc, h2, h3, h4,
      decide_False]
    simp [submissions]
  rcases h5 : env.accountState account 0 with e | prev
  · simp only [devDeploy, Eff.step, resolve_devDeployScope, hnet, h1, hsrc, h2, h3, h4, h5,
      decide_False]
    simp [submissions]
  rcases h6 : env.readFileSync options.wasmFile with e | code
  · simp only [devDeploy, Eff.step, resolve_devDeployScope, hnet, h1, hsrc, h2, h3, h4, h5, h6,
      decide_False]
    simp [submissions]
  cases hargs : options.initArgs.truthy <;> cases hfn : options.initFunction.truthy
  · simp only [devDeploy, Eff.step, resolve_devDeployScope, hnet, h1, hsrc, h2, h3, h4, h5, h6,
      hargs, hfn, decide_False, Bool.not_true, Bool.not_false, Bool.and_true, Bool.and_false,
      Bool.false_and, Bool.true_and, Bool.false_eq_true, ↓reduceIte]
    repeat' split
    all_goals simp [submissions]
  · rcases h7 : env.track (.failure "Must add initialization arguments") options with e | u
    all_goals
      simp only [devDeploy, Eff.step, resolve_devDeployScope, hnet, h1, hsrc, h2, h3, h4, h5,
        h6, h7, hargs, hfn, decide_False, Bool.not_true, Bool.not_false, Bool.and_true,
        Bool.and_false, Bool.false_and, Bool.true_and, Bool.false_eq_true, ↓reduceIte]
      simp [submissions]
  · rcases h7 : env.bufferFrom options.initArgs with e | args
    · simp only [devDeploy, Eff.step, resolve_devDeployScope, hnet, h1, hsrc, h2, h3, h4, h5,
        h6, h7, hargs, hfn, truthy_new, decide_False, Bool.not_true, Bool.not_false,
        Bool.and_true, Bool.and_false, Bool.false_and, Bool.true_and, Bool.false_eq_true,
        ↓reduceIte]
      simp [submissions]
    rcases h8 : env.parseNearAmount options.initDeposit with e | deposit
    · simp only [devDeploy, Eff.step, resolve_devDeployScope, hnet, h1, hsrc, h2, h3, h4, h5,
        h6, h7, h8, hargs, hfn, truthy_new, decide_False, Bool.not_true, Bool.not_false,
        Bool.and_true, Bool.and_false, Bool.false_and, Bool.true_and, Bool.false_eq_true,
        ↓reduceIte]
      simp [submissions]
    simp only [devDeploy, Eff.step, resolve_devDeployScope, hnet, h1, hsrc, h2, h3, h4, h5,
      h6, h7, h8, hargs, hfn, truthy_new, decide_False, Bool.not_true, Bool.not_false,
      Bool.and_true, Bool.and_false, Bool.false_and, Bool.true_and, Bool.false_eq_true,
      ↓reduceIte]
    repeat' split
    all_goals simp [submissions]
  · rcases h7 : env.bufferFrom options.initArgs with e | args
    · simp only [devDeploy, Eff.step, resolve_devDeployScope, hnet, h1, hsrc, h2, h3, h4, h5,
        h6, h7, hargs, hfn, decide_False, Bool.not_true, Bool.not_false,
        Bool.and_true, Bool.and_false, Bool.false_and, Bool.true_and, Bool.false_eq_true,
        ↓reduceIte]
      simp [submissions]
    rcases h8 : env.parseNearAmount options.initDeposit with e | deposit
    · simp only [devDeploy, Eff.step, resolve_devDeployScope, hnet, h1, hsrc, h2, h3, h4, h5,
        h6, h7, h8, hargs, hfn, decide_False, Bool.not_true, Bool.not_false,
        Bool.and_true, Bool.and_false, Bool.false_and, Bool.true_and, Bool.false_eq_true,
        ↓reduceIte]
      simp [submissions]
    simp only [devDeploy, Eff.step, resolve_devDeployScope, hnet, h1, hsrc, h2, h3, h4, h5,
      h6, h7, h8, hargs, hfn, decide_False, Bool.not_true, Bool.not_false,
      Bool.and_true, Bool.and_false, Bool.false_and, Bool.true_and, Bool.false_eq_true,
      ↓reduceIte]
    repeat' split
    all_goals simp [submissions]

/-- C10, as amended: for every options value `devDeploy` either submits one
signed transaction or fails before any submission.  The contract file is read
after the connection, the development account and the first account-state
query: when the file is unreadable the handler fails with the file-read error,
having connected, obtained the development account and queried its state, and
having submitted nothing. -/
theorem devDeploy_submits_once_or_fails (env : Env) (options : Options) :
    SubmitsOnceOrFails ((devDeploy env).run options)
    ∧ ∀ (near : Near) (accountId : String) (account : Account) (prev : AccountState)
        (e : JSError),
        options.networkId ≠ .str "mainnet" →
        (options.helperUrl.truthy = true ∨ options.masterAccount.truthy = true) →
        env.askForConsentIfNeeded options = .ok () →
        env.connect options = .ok near →
        env.createDevAccountIfNeeded options near = .ok accountId →
        env.nearAccount near (.str accountId) = .ok account →
        env.accountState account 0 = .ok prev →
        env.readFileSync options.wasmFile = .error e →
        ((devDeploy env).run options).outcome = .error e
        ∧ ((devDeploy env).run options).log.filter Event.isNetworkCall
            = [.connect, .createDevAccountIfNeeded, .accountState]
        ∧ submissions ((devDeploy env).run options).log = [] := by
  refine ⟨devDeploy_pair_submits_once_or_fails env options, ?_⟩
  intro near accountId account prev e hnet hsrc hconsent hconn hdev hacc hstate hfile
  rw [devDeploy_run_of_unreadable env options near accountId account prev e hnet hsrc hconsent
    hconn hdev hacc hstate hfile]
  simp [submissions, Event.isNetworkCall]

/-- C10, as amended, at `wasmFile = ./out/missing.wasm` on testnet. -/
theorem devDeploy_submits_once_or_fails_witness :
    ((devDeploy sampleEnv).run missingWasmOptions).outcome
        = .error (.rejected none "ENOENT: no such file or directory")
    ∧ ((devDeploy sampleEnv).run missingWasmOptions).log.filter Event.isNetworkCall
        = [.connect, .createDevAccountIfNeeded, .accountState]
    ∧ submissions ((devDeploy sampleEnv).run missingWasmOptions).log = [] :=
  (devDeploy_submits_once_or_fails sampleEnv missingWasmOptions).2 { handle := 0 }
    "dev-1667520000000-44269488213541" { handle := 0 }
    { code_hash := "11111111111111111111111111111111" }
    (.rejected none "ENOENT: no such file or directory")
    (by decide) (Or.inl rfl) rfl rfl rfl rfl rfl rfl

/-- C10, as stated, fails: at `wasmFile = ./out/missing.wasm` on testnet the
handler fails with the file-read error, yet the connection, the development
account and an account-state query were made before the file was read. -/
theorem devDeploy_unreadable_file_counterexample :
    ((devDeploy sampleEnv).run missingWasmOptions).outcome
        = .error (.rejected none "ENOENT: no such file or directory")
    ∧ ((devDeploy sampleEnv).run missingWasmOptions).log
        = [.askForConsentIfNeeded, .connect, .createDevAccountIfNeeded,
           .nearAccount (.str "dev-1667520000000-44269488213541"), .accountState,
           .consoleLog (startingLine "dev-1667520000000-44269488213541"
             missingWasmOptions.nodeUrl missingWasmOptions.helperUrl
             missingWasmOptions.wasmFile),
           .readFileSync (.str "./out/missing.wasm")]
    ∧ ((devDeploy sampleEnv).run missingWasmOptions).log.filter Event.isNetworkCall ≠ [] := by
  rw [devDeploy_run_of_unreadable sampleEnv missingWasmOptions { handle := 0 }
    "dev-1667520000000-44269488213541" { handle := 0 }
    { code_hash := "11111111111111111111111111111111" }
    (.rejected none "ENOENT: no such file or directory")
    (by decide) (Or.inl rfl) rfl rfl rfl rfl rfl rfl]
  simp [Event.isNetworkCall, missingWasmOptions]

/-! ### `js` -/

/-- C4: `jsvm_contract_id` returns an explicit override whatever the network
id; without an override (`jsvm` is `null`) it returns `jsvm.testnet` on testnet,
and fails on mainnet and on every other network id. -/
theorem jsvm_contract_id_resolution (options : Options) :
    (options.jsvm ≠ .null → jsvm_contract_id options = .ok options.jsvm)
    ∧ (options.jsvm = .null → options.networkId = .str "testnet" →
        jsvm_contract_id options = .ok (.str "jsvm.testnet"))
    ∧ (options.jsvm = .null → options.networkId = .str "mainnet" →
        ∃ e, jsvm_contract_id options = .error e)
    ∧ (options.jsvm = .null → options.networkId ≠ .str "testnet" →
        options.networkId ≠ .str "mainnet" →
        ∃ e, jsvm_contract_id options = .error e) := by
  refine ⟨?_, ?_, ?_, ?_⟩
  · intro h
    simp [jsvm_contract_id, h]
  · intro h hn
    simp [jsvm_contract_id, h, hn]
  · intro h hn
    exact ⟨.error "No current default jsvm contract for mainnet", by
      simp [jsvm_contract_id, h, hn, resolve_jsScope, Except.bind]⟩
  · intro h ht hm
    exact ⟨.referenceError "option", by
      simp [jsvm_contract_id, h, ht, hm, resolve_jsScope, Except.bind]⟩

/-- C4 at an override on mainnet, and at testnet, mainnet and `betanet`
without an override. -/
theorem jsvm_contract_id_resolution_witness :
    jsvm_contract_id { networkId := .str "mainnet", jsvm := .str "jsvm.alice.near" }
        = .ok (.str "jsvm.alice.near")
    ∧ jsvm_contract_id { networkId := .str "testnet", jsvm := .null }
        = .ok (.str "jsvm.testnet")
    ∧ (∃ e, jsvm_contract_id { networkId := .str "mainnet", jsvm := .null } = .error e)
    ∧ (∃ e, jsvm_contract_id { networkId := .str "betanet", jsvm := .null } = .error e) :=
  ⟨(jsvm_contract_id_resolution
      { networkId := .str "mainnet", jsvm := .str "jsvm.alice.near" }).1 (by decide),
    (jsvm_contract_id_resolution { networkId := .str "testnet", jsvm := .null }).2.1 rfl rfl,
    (jsvm_contract_id_resolution { networkId := .str "mainnet", jsvm := .null }).2.2.1 rfl rfl,
    (jsvm_contract_id_resolution { networkId := .str "betanet", jsvm := .null }).2.2.2 rfl
      (by decide) (by decide)⟩

/-- The initialiser of `deposit` at line 111 evaluates to `depositYocto` itself
whenever it is provided (neither `undefined` nor `null`), whatever `deposit` is,
and to the unit conversion `parseNearAmount` of `deposit` when `depositYocto`
is absent. -/
theorem resolveDeposit_spec (env : Env) (options : Options) :
    (options.depositYocto ≠ .undefined → options.depositYocto ≠ .null →
      resolveDeposit env options = .ok options.depositYocto
      ∧ ∀ d : JSVal, resolveDeposit env { options with deposit := d }
          = resolveDeposit env options)
    ∧ (options.depositYocto = .undefined ∨ options.depositYocto = .null →
        resolveDeposit env options = env.parseNearAmount options.deposit) := by
  refine ⟨?_, ?_⟩
  · intro hu hn
    have h : options.depositYocto.looseNeNull = true := by
      cases hd : options.depositYocto <;> simp_all [JSVal.looseNeNull]
    simp [resolveDeposit, h]
  · intro h
    have h2 : options.depositYocto.looseNeNull = false := by
      rcases h with h | h <;> simp [h, JSVal.looseNeNull]
    simp [resolveDeposit, h2, resolve_jsScope, Except.bind]

/-- The initialiser of `deposit` at `--depositYocto 1 --deposit 5` and at
`--deposit 1`. -/
theorem resolveDeposit_spec_witness :
    (resolveDeposit sampleEnv { depositYocto := .str "1", deposit := .str "5" }
        = .ok (.str "1")
      ∧ ∀ d : JSVal, resolveDeposit sampleEnv
          { ({ depositYocto := .str "1", deposit := .str "5" } : Options) with deposit := d }
          = resolveDeposit sampleEnv { depositYocto := .str "1", deposit := .str "5" })
    ∧ resolveDeposit sampleEnv { deposit := .str "1" }
        = .ok (.str "1000000000000000000000000") :=
  ⟨(resolveDeposit_spec sampleEnv { depositYocto := .str "1", deposit := .str "5" }).1
      (by decide) (by decide),
    (resolveDeposit_spec sampleEnv { deposit := .str "1" }).2 (Or.inl rfl)⟩

/-- The function calls of a run of `remove` once the credentials, the
connection, the enclave contract id and the gas are resolved: exactly one,
whatever it returns or throws, to the resolved contract id, method
`remove_js_contract`, `null` arguments, deposit `'0'`. -/
theorem remove_functionCalls_of_resolved (env : Env) (options : Options) (near : Near)
    (account : Account) (jsvmId gas : JSVal)
    (hcred : env.checkCredentials options.accountId options.networkId options.keyStore = .ok ())
    (hconn : env.connect options = .ok near)
    (hacc : env.nearAccount near options.accountId = .ok account)
    (hid : jsvm_contract_id options = .ok jsvmId)
    (hgas : toNumber options.gas = .ok gas) :
    functionCalls ((remove env).run options).log =
      [{ contractId := jsvmId, methodName := "remove_js_contract", args := none,
         gas := gas, attachedDeposit := .str "0" }] := by
  simp only [Eff.run, remove, reportResponse, catchBlock, Eff.step, Eff.ite_apply,
    resolve_jsScope, hcred, hconn, hacc, hid, hgas]
  repeat' split
  all_goals simp [functionCalls]

/-- C7, on the code: at `js remove --accountId=alice.testnet` on testnet, with
valid credentials and the default gas, the options carry no `jsvm` key, so
`jsvm_contract_id` returns `undefined` at line 80 (`undefined !== null`) and the
one remote function call of `remove` is addressed to the contract id
`undefined`, not to `jsvm.testnet`. -/
theorem remove_calls_undefined_contract :
    aliceRemoveOptions.accountId = .str "alice.testnet"
    ∧ aliceRemoveOptions.networkId = .str "testnet"
    ∧ aliceRemoveOptions.gas = DEFAULT_FUNCTION_CALL_GAS
    ∧ aliceRemoveOptions.jsvm = .undefined
    ∧ jsvm_contract_id aliceRemoveOptions = .ok .undefined
    ∧ functionCalls ((remove sampleEnv).run aliceRemoveOptions).log =
      [{ contractId := .undefined, methodName := "remove_js_contract", args := none,
         gas := .num 30000000000000, attachedDeposit := .str "0" }] :=
  ⟨rfl, rfl, rfl, rfl, rfl,
    remove_functionCalls_of_resolved sampleEnv aliceRemoveOptions { handle := 0 }
      { handle := 0 } .undefined (.num 30000000000000) rfl rfl rfl rfl toNumber_default⟩

/-- With `jsvm` passed as `null` on testnet, valid credentials and the default
gas, the one remote function call of `remove` goes to `jsvm.testnet`. -/
theorem remove_functionCalls_of_null_jsvm (env : Env) (options : Options) (near : Near)
    (account : Account)
    (hcred : env.checkCredentials options.accountId options.networkId options.keyStore = .ok ())
    (hconn : env.connect options = .ok near)
    (hacc : env.nearAccount near options.accountId = .ok account)
    (hnet : options.networkId = .str "testnet")
    (hjsvm : options.jsvm = .null)
    (hgas : options.gas = DEFAULT_FUNCTION_CALL_GAS) :
    functionCalls ((remove env).run options).log =
      [{ contractId := .str "jsvm.testnet", methodName := "remove_js_contract", args := none,
         gas := .num 30000000000000, attachedDeposit := .str "0" }] := by
  have hid : jsvm_contract_id options = .ok (.str "jsvm.testnet") := by
    simp [jsvm_contract_id, hjsvm, hnet]
  exact remove_functionCalls_of_resolved env options near account _ _ hcred hconn hacc hid
    (hgas ▸ toNumber_default)

/-- The run of `deploy` once the credentials, the connection, the enclave
contract id and the deposit are resolved: line 112 reads the unbound name
`readFileSync`, so the handler throws before the file read and the function
call. -/
theorem deploy_run_of_resolved (env : Env) (options : Options) (near : Near)
    (account : Account) (jsvmId deposit : JSVal)
    (hcred : env.checkCredentials options.accountId options.networkId options.keyStore = .ok ())
    (hconn : env.connect options = .ok near)
    (hacc : env.nearAccount near options.accountId = .ok account)
    (hid : jsvm_contract_id options = .ok jsvmId)
    (hdep : resolveDeposit env options = .ok deposit) :
    (deploy env).run options =
      { log := [.checkCredentials options.accountId options.networkId, .connect,
                .nearAccount options.accountId],
        options := options,
        outcome := .error (.referenceError "readFileSync") } := by
  apply Eff.run_of_eq
  simp only [deploy, Eff.step, resolve_jsScope, hcred, hconn, hacc, hid, hdep,
    List.nil_append, List.cons_append]

/-- No run of `deploy` makes a remote function call, and every run ends in a
thrown error. -/
theorem deploy_makes_no_function_call (env : Env) (options : Options) :
    functionCalls ((deploy env).run options).log = []
    ∧ ∃ e, ((deploy env).run options).outcome = .error e := by
  simp only [Eff.run]
  rcases h1 : env.checkCredentials options.accountId options.networkId options.keyStore
    with e | u
  · simp only [deploy, Eff.step, resolve_jsScope, h1]
    simp [functionCalls]
  rcases h2 : env.connect options with e | near
  · simp only [deploy, Eff.step, resolve_jsScope, h1, h2]
    simp [functionCalls]
  rcases h3 : env.nearAccount near options.accountId with e | account
  · simp only [deploy, Eff.step, resolve_jsScope, h1, h2, h3]
    simp [functionCalls]
  rcases h4 : jsvm_contract_id options with e | jsvmId
  · simp only [deploy, Eff.step, resolve_jsScope, h1, h2, h3, h4]
    simp [functionCalls]
  rcases h5 : resolveDeposit env options with e | deposit
  · simp only [deploy, Eff.step, resolve_jsScope, h1, h2, h3, h4, h5]
    simp [functionCalls]
  simp only [deploy, Eff.step, resolve_jsScope, h1, h2, h3, h4, h5]
  simp [functionCalls]

/-- C6, on the code: at
`js deploy --accountId=alice.testnet --base64File=./out/main.wasm --depositYocto=1`
on testnet, with valid credentials, an existing file and the testnet enclave,
`deploy` throws `ReferenceError: readFileSync is not defined` and makes no
remote function call. -/
theorem deploy_throws_before_function_call :
    ((deploy sampleEnv).run aliceDeployOptions).outcome
      = .error (.referenceError "readFileSync")
    ∧ functionCalls ((deploy sampleEnv).run aliceDeployOptions).log = []
    ∧ sampleEnv.readFileSync aliceDeployOptions.base64File = .ok [0, 97, 115, 109, 1, 0, 0, 0]
    ∧ jsvm_contract_id aliceDeployOptions = .ok (.str "jsvm.testnet") := by
  rw [deploy_run_of_resolved sampleEnv aliceDeployOptions { handle := 0 } { handle := 0 }
    (.str "jsvm.testnet") (.str "1") rfl rfl rfl rfl rfl]
  exact ⟨rfl, rfl, rfl, rfl⟩

/-- C5, on the code: at `--depositYocto=1 --deposit=5` line 111 resolves the
deposit to `'1'`, and at `--deposit=1` to the converted amount, as specified; but
no run of `deploy` attaches it to a call: line 112 throws
`ReferenceError: readFileSync is not defined`, so no remote function call is
made and no deposit is attached. -/
theorem deploy_attaches_no_deposit :
    (resolveDeposit sampleEnv aliceBothDepositsOptions = .ok (.str "1")
      ∧ ((deploy sampleEnv).run aliceBothDepositsOptions).outcome
          = .error (.referenceError "readFileSync")
      ∧ (functionCalls ((deploy sampleEnv).run aliceBothDepositsOptions).log).map
          FunctionCallArgs.attachedDeposit = [])
    ∧ (resolveDeposit sampleEnv aliceNearDepositOptions
          = .ok (.str "1000000000000000000000000")
      ∧ ((deploy sampleEnv).run aliceNearDepositOptions).outcome
          = .error (.referenceError "readFileSync")
      ∧ (functionCalls ((deploy sampleEnv).run aliceNearDepositOptions).log).map
          FunctionCallArgs.attachedDeposit = []) := by
  rw [deploy_run_of_resolved sampleEnv aliceBothDepositsOptions { handle := 0 } { handle := 0 }
      (.str "jsvm.testnet") (.str "1") rfl rfl rfl rfl rfl,
    deploy_run_of_resolved sampleEnv aliceNearDepositOptions { handle := 0 } { handle := 0 }
      (.str "jsvm.testnet") (.str "1000000000000000000000000") rfl rfl rfl rfl rfl]
  exact ⟨⟨rfl, rfl, rfl⟩, rfl, rfl, rfl⟩

/-- The run of `remove` when the remote call throws an error whose kind
serialises to the prepaid-gas label: the `catch` block reads the unbound name
`handleExceededThePrepaidGasError` and the reference error leaves the handler. -/
theorem remove_run_of_exceeded_gas (env : Env) (options : Options) (near : Near)
    (account : Account) (jsvmId gas : JSVal) (e : JSError)
    (hcred : env.checkCredentials options.accountId options.networkId options.keyStore = .ok ())
    (hconn : env.connect options = .ok near)
    (hacc : env.nearAccount near options.accountId = .ok account)
    (hid : jsvm_contract_id options = .ok jsvmId)
    (hgas : toNumber options.gas = .ok gas)
    (hcall : env.functionCall account
      { contractId := jsvmId, methodName := "remove_js_contract", args := none, gas := gas,
        attachedDeposit := .str "0" } = .error e)
    (hkind : e.stringifyKind = some exceededPrepaidGasLabel) :
    (remove env).run options =
      { log := [.checkCredentials options.accountId options.networkId, .connect,
                .nearAccount options.accountId,
                .functionCall
                  { contractId := jsvmId, methodName := "remove_js_contract", args := none,
                    gas := gas, attachedDeposit := .str "0" }],
        options := options,
        outcome := .error (.referenceError "handleExceededThePrepaidGasError") } := by
  apply Eff.run_of_eq
  simp only [remove, catchBlock, Eff.step, Eff.ite_apply, resolve_jsScope, hcred, hconn, hacc,
    hid, hgas, hcall, hkind, ↓reduceIte, List.nil_append, List.cons_append]

/-- The run of `remove` when the remote call throws an error of any other kind:
the error is logged and the handler completes. -/
theorem remove_run_of_other_error (env : Env) (options : Options) (near : Near)
    (account : Account) (jsvmId gas : JSVal) (e : JSError)
    (hcred : env.checkCredentials options.accountId options.networkId options.keyStore = .ok ())
    (hconn : env.connect options = .ok near)
    (hacc : env.nearAccount near options.accountId = .ok account)
    (hid : jsvm_contract_id options = .ok jsvmId)
    (hgas : toNumber options.gas = .ok gas)
    (hcall : env.functionCall account
      { contractId := jsvmId, methodName := "remove_js_contract", args := none, gas := gas,
        attachedDeposit := .str "0" } = .error e)
    (hkind : e.stringifyKind ≠ some exceededPrepaidGasLabel) :
    (remove env).run options =
      { log := [.checkCredentials options.accountId options.networkId, .connect,
                .nearAccount options.accountId,
                .functionCall
                  { contractId := jsvmId, methodName := "remove_js_contract", args := none,
                    gas := gas, attachedDeposit := .str "0" },
                .consoleLogError e],
        options := options,
        outcome := .ok () } := by
  apply Eff.run_of_eq
  simp only [remove, catchBlock, Eff.step, Eff.ite_apply, resolve_jsScope, hcred, hconn, hacc,
    hid, hgas, hcall, hkind, ↓reduceIte, List.nil_append, List.cons_append]

/-- C8, on the code: at `js remove --accountId=alice.testnet` on testnet, when
the remote call fails with the kind `ExecutionError: Exceeded the prepaid gas.`,
`remove` does not complete: it throws
`ReferenceError: handleExceededThePrepaidGasError is not defined`. -/
theorem remove_throws_on_exceeded_gas :
    gasExceededEnv.functionCall { handle := 0 }
        { contractId := .undefined, methodName := "remove_js_contract", args := none,
          gas := .num 30000000000000, attachedDeposit := .str "0" }
      = .error exceededPrepaidGas
    ∧ exceededPrepaidGas.stringifyKind
      = some "\x7b\"ExecutionError\":\"Exceeded the prepaid gas.\"\x7d"
    ∧ ((remove gasExceededEnv).run aliceRemoveOptions).outcome
      = .error (.referenceError "handleExceededThePrepaidGasError") := by
  rw [remove_run_of_exceeded_gas gasExceededEnv aliceRemoveOptions { handle := 0 }
    { handle := 0 } .undefined (.num 30000000000000) exceededPrepaidGas
    rfl rfl rfl rfl toNumber_default rfl stringifyKind_exceededPrepaidGas]
  exact ⟨rfl, stringifyKind_exceededPrepaidGas, rfl⟩

end NearCli
